import Mathlib

/-!
# Verification of the oas3 per-request endpoint pipeline

Shallow embedding of the request pipeline of the `oas` package
(`endpoint.go`, `openapi.go`, `errors.go`, `util.go`): typed parameter
conversion, request materialization (`parseRequest`), panic-safe dispatch
(`runUserDefinedFunc`), response resolution (`Call`), and middleware
composition (`NewOpenAPI` / `endpointObject.Define`).

The source carries two pipeline variants: the exported `Endpoint`
(value-receiver handlers, spec optional) and the interface-based
`endpointObject` (spec always present, per-request JSON indent header).
Both `Call` bodies are embedded (`callV1` and `callV2`); they share the
request materializer, which is line-for-line identical in the two
variants.

External collaborators (the gojsonschema validator on per-property
sub-schemas, `json.Marshal`/`json.Unmarshal` on user types) appear as an
oracle record of functions; everything the repository's own code decides
(loop structure, abort policy, error classification, status selection,
write order, hook dispatch) is translated directly from the source.
-/

namespace Oas

/-! ## Models of the Go standard-library fragments used by the pipeline -/

/-- Numeric value of a list of ASCII digits (most significant first). -/
def digitsVal (cs : List Char) : Nat :=
  cs.foldl (fun n c => n * 10 + (c.toNat - '0'.toNat)) 0

/-- One character of `strconv.Quote` output. Models the ASCII fragment
(standard escapes, hex escapes below 0x20); non-ASCII printable runes are
kept verbatim, which is what `strconv.Quote` does for printable runes. -/
def quoteChar (c : Char) : List Char :=
  if c = '"' then ['\\', '"']
  else if c = '\\' then ['\\', '\\']
  else if c = '\n' then ['\\', 'n']
  else if c = '\r' then ['\\', 'r']
  else if c = '\t' then ['\\', 't']
  else if c.toNat = 7 then ['\\', 'a']
  else if c.toNat = 8 then ['\\', 'b']
  else if c.toNat = 11 then ['\\', 'v']
  else if c.toNat = 12 then ['\\', 'f']
  else if c.toNat < 0x20 ∨ c.toNat = 0x7f then
    let hexDigit : Nat → Char := fun n =>
      if n < 10 then Char.ofNat ('0'.toNat + n) else Char.ofNat ('a'.toNat + n - 10)
    ['\\', 'x', hexDigit (c.toNat / 16), hexDigit (c.toNat % 16)]
  else [c]

/-- Model of Go `strconv.Quote`. -/
def quoteGo (s : String) : String :=
  "\"" ++ String.mk (s.toList.foldr (fun c acc => quoteChar c ++ acc) []) ++ "\""

/-- Error text of a `strconv` syntax failure, as `NumError.Error()` prints it. -/
def strconvSyntaxErr (fn s : String) : String :=
  "strconv." ++ fn ++ ": parsing " ++ quoteGo s ++ ": invalid syntax"

/-- Error text of a `strconv` range failure. -/
def strconvRangeErr (fn s : String) : String :=
  "strconv." ++ fn ++ ": parsing " ++ quoteGo s ++ ": value out of range"

/-- Model of Go `strconv.Atoi` (= `ParseInt(s, 10, 64)` on 64-bit targets):
an optional sign followed by one or more ASCII digits, with the 64-bit
range check.  Returns the parsed integer or the error text. -/
def goAtoi (s : String) : Except String Int :=
  let cs := s.toList
  let signed : Int × List Char :=
    match cs with
    | '+' :: r => (1, r)
    | '-' :: r => (-1, r)
    | r => (1, r)
  let ds := signed.2
  if ds.isEmpty ∨ ¬ ds.all Char.isDigit then
    .error (strconvSyntaxErr "Atoi" s)
  else
    let n : Int := signed.1 * (digitsVal ds : Int)
    if n < -(2 ^ 63) ∨ (2 ^ 63 : Int) ≤ n then .error (strconvRangeErr "Atoi" s)
    else .ok n

/-- Model of Go `strconv.ParseBool`: the fixed list of accepted literals. -/
def goParseBool (s : String) : Except String Bool :=
  if s = "1" ∨ s = "t" ∨ s = "T" ∨ s = "TRUE" ∨ s = "true" ∨ s = "True" then .ok true
  else if s = "0" ∨ s = "f" ∨ s = "F" ∨ s = "FALSE" ∨ s = "false" ∨ s = "False" then .ok false
  else .error (strconvSyntaxErr "ParseBool" s)

/-- Splits off a maximal run of ASCII digits, returning the count and the rest. -/
def takeDigits : List Char → Nat × List Char
  | [] => (0, [])
  | c :: r =>
    if c.isDigit then
      let p := takeDigits r
      (p.1 + 1, p.2)
    else (0, c :: r)

/-- Decimal mantissa/exponent recognizer for `strconv.ParseFloat`:
`digits [. digits] [(e|E) [sign] digits]` with at least one mantissa digit. -/
def floatDecimalOk (cs : List Char) : Bool :=
  let p1 := takeDigits cs
  let p2 : Nat × List Char :=
    match p1.2 with
    | '.' :: r => takeDigits r
    | r => (0, r)
  if p1.1 + p2.1 = 0 then false
  else
    match p2.2 with
    | [] => true
    | e :: r =>
      if e = 'e' ∨ e = 'E' then
        let r' : List Char :=
          match r with
          | '+' :: t => t
          | '-' :: t => t
          | t => t
        let p3 := takeDigits r'
        decide (0 < p3.1) && p3.2.isEmpty
      else false

/-- Model of the syntax accepted by Go `strconv.ParseFloat`:
optional sign, then `inf`/`infinity`/`nan` (case-insensitive) or a decimal
mantissa with optional exponent.  (The hexadecimal-float and
digit-separator extensions are outside the fragment the pipeline's inputs
exercise and are not modelled.) -/
def floatSyntaxOk (s : String) : Bool :=
  let cs : List Char :=
    match s.toList with
    | '+' :: r => r
    | '-' :: r => r
    | r => r
  let lower := String.mk (cs.map Char.toLower)
  if lower = "inf" ∨ lower = "infinity" ∨ lower = "nan" then true
  else floatDecimalOk cs

/-- Model of Go `strconv.ParseFloat(s, 64)`.  The claims under proof never
consult the numeric value of a parsed float, only whether parsing
succeeded, so a successfully parsed float is identified by its accepted
text. -/
def goParseFloat (s : String) : Except String String :=
  if floatSyntaxOk s then .ok s else .error (strconvSyntaxErr "ParseFloat" s)

/-- Model of Go `strings.Repeat(" ", n)` for the indent argument
(`n` is an `int`; a non-positive count yields the empty string). -/
def spaces (n : Int) : String :=
  String.mk (List.replicate n.toNat ' ')

/-- Character-level worker for `strings.Split(s, "/")`. -/
def splitSlashAux : List Char → List (List Char)
  | [] => [[]]
  | c :: r =>
    let rest := splitSlashAux r
    if c = '/' then [] :: rest
    else
      match rest with
      | [] => [[c]]
      | x :: xs => (c :: x) :: xs

/-- Model of Go `strings.Split(s, "/")`: the segments of `s` between
occurrences of `/` (always one more segment than separators). -/
def splitSlash (s : String) : List String :=
  (splitSlashAux s.toList).map String.mk

/-! ## Data model (`util.go`, `response.go`, `errors.go`) -/

/-- The subset of `reflect.Kind` values accepted by `Endpoint.Parameter`
(`String`, `Int`, `Float64`, `Bool`); `other` stands for any different
kind, which `Parameter` warns about but still stores. -/
inductive Kind where
  | str
  | int
  | float64
  | bool
  | other
deriving DecidableEq, Repr

/-- `typedParameter`: the declaration fields the pipeline reads. -/
structure TypedParameter where
  name : String
  required : Bool
  kind : Kind
deriving DecidableEq, Repr

/-- A converted parameter value as it is stored into `Data.Query` /
`Data.Params` / `Data.Headers` (`map[string]interface{}`). -/
inductive GoValue where
  | vStr (s : String)
  | vInt (n : Int)
  | vFloat (text : String)
  | vBool (b : Bool)
deriving DecidableEq, Repr

/-- Model of `MapAny` (`map[string]interface{}`) as an association list;
`mapSet` is Go map assignment (update in place or append). -/
abbrev MapAny := List (String × GoValue)

def mapSet (m : MapAny) (k : String) (v : GoValue) : MapAny :=
  if (m.lookup k).isSome then
    m.map (fun kv => if kv.1 = k then (k, v) else kv)
  else m ++ [(k, v)]

def mapGet (m : MapAny) (k : String) : Option GoValue :=
  m.lookup k

/-- `JSONValidationError` / `jsonValidationError`: the structured
validation-error body (`errors.go`). -/
structure ValidationErrorBody where
  type : String
  errors : List String
deriving DecidableEq, Repr

/-- The dynamic type of a Go `error` value flowing through the pipeline,
as `Call`'s type switch distinguishes them: a `JSONValidationError`, a
`MalformedJSONError`, or anything else (including `errors.WithMessage`
wrappers and recovered panics). -/
inductive GoError where
  | validation (e : ValidationErrorBody)
  | malformed (msg : String)
  | generic (msg : String)
deriving DecidableEq, Repr

/-- `Error()` text of a pipeline error value. -/
def errMessage : GoError → String
  | .validation e => "JSONValidationError:\n\t" ++ String.intercalate "\n\t" e.errors
  | .malformed m => m
  | .generic m => m

/-- `errorToJSON` (`errors.go` line 36-38): the generic internal-error
envelope sent for status-500 responses. -/
def errorToJSON (msg : String) : String :=
  "\x7b\"message\":\"Internal Server Error\",\"details\":" ++ quoteGo msg ++ "\x7d"

/-- `NewMalformedJSONError` message, following its lower-case twin
`newMalformedJSONError` (the exported type's constructor body is not in
the sources; only the message text, which no claim depends on, comes from
the twin). -/
def malformedJSONMsg (cause : String) : String :=
  "request contains malformed JSON: " ++ cause

/-- `NewJSONValidationError` applied to a list of already-formatted
`At <context>: <description>` strings. -/
def mkValidationError (errs : List String) : ValidationErrorBody :=
  { type := "JSONValidationError", errors := errs }

/-! ## Typed parameter conversion (`endpoint.go:301-314`) -/

/-- `convertParamType`: convert a raw string to the parameter's declared
kind, or fail with the strconv error text. -/
def convertParamType (param : TypedParameter) (item : String) : Except String GoValue :=
  match param.kind with
  | .str => .ok (.vStr item)
  | .int => (goAtoi item).map .vInt
  | .float64 => (goParseFloat item).map .vFloat
  | .bool => (goParseBool item).map .vBool
  | .other => .error "bad reflection type for converting parameter from string"

/-- How request materialization stops early: a returned `error` value, or
an unrecovered runtime fault (there is no `recover` around
`parseRequest`, so a fault escapes `Call` entirely). -/
inductive Abort where
  | gerr (e : GoError)
  | fault (msg : String)
deriving DecidableEq, Repr

/-! ## Request materializer loops (`endpoint.go:327-375`) -/

/-- The query-parameter loop: skip an absent (empty) raw value, convert a
present one, abort with the wrapped conversion error on the first
failure.  `errors.WithMessage` produces a plain wrapper whose dynamic
type is neither `JSONValidationError` nor `MalformedJSONError`, hence
`GoError.generic`. -/
def queryLoop (get : String → String) : List TypedParameter → MapAny → Except Abort MapAny
  | [], m => .ok m
  | p :: ps, m =>
    if get p.name = "" then queryLoop get ps m
    else
      match convertParamType p (get p.name) with
      | .ok v => queryLoop get ps (mapSet m p.name v)
      | .error msg =>
        .error (.gerr (.generic ("failed to convert query parameter " ++ p.name ++ ": " ++ msg)))

/-- The header-parameter loop (same skip/abort policy as the query loop). -/
def headerLoop (get : String → String) : List TypedParameter → MapAny → Except Abort MapAny
  | [], m => .ok m
  | p :: ps, m =>
    if get p.name = "" then headerLoop get ps m
    else
      match convertParamType p (get p.name) with
      | .ok v => headerLoop get ps (mapSet m p.name v)
      | .error msg =>
        .error (.gerr (.generic ("failed to convert header parameter " ++ p.name ++ ": " ++ msg)))

/-- The path-parameter loop over `e.params` (its Go-map iteration order is
unspecified; the model fixes the list order).  The guard compares
`len(splitPath)` against the declared placeholder index `loc`, but the
subsequent access indexes at `basePathLength + loc`; an access past the
end of the slice is an unrecovered runtime fault. -/
def pathLoop (basePathLength : Nat) (splitPath : List String) :
    List (Nat × TypedParameter) → MapAny → Except Abort MapAny
  | [], m => .ok m
  | (loc, p) :: ps, m =>
    if splitPath.length ≤ loc then pathLoop basePathLength splitPath ps m
    else
      match splitPath.get? (basePathLength + loc) with
      | none =>
        .error (.fault ("runtime error: index out of range [" ++
          toString (basePathLength + loc) ++ "] with length " ++ toString splitPath.length))
      | some seg =>
        match convertParamType p seg with
        | .ok v => pathLoop basePathLength splitPath ps (mapSet m p.name v)
        | .error msg =>
          .error (.gerr (.generic ("failed to convert path parameter " ++ p.name ++ ": " ++ msg)))

/-! ## Endpoint, request, oracle -/

/-- The definition-time state of an endpoint that `Call` and
`parseRequest` read, covering both source variants (`Endpoint` and
`endpointObject`).  In the `Endpoint` variant `spec` may be `nil`
(`specPresent`); `endpointObject` always carries its spec. -/
structure EndpointModel where
  query : List TypedParameter
  params : List (Nat × TypedParameter)
  headers : List TypedParameter
  hasBodyType : Bool
  bodyRequired : Bool
  hasDataSchema : Bool
  responseSchemaCodes : List Nat
  version : Nat
  specPresent : Bool
  basePathLength : Nat
  jsonIndent : Int
  hookPresent : Bool
  handlerDefined : Bool

/-- The raw incoming request, reduced to what the pipeline reads:
`URL.Path`, `URL.Query().Get`, `Header.Get`, and the body bytes (body
reads are modelled as succeeding; read/close failures are I/O conditions
outside the shallow embedding). -/
structure RequestModel where
  path : String
  queryGet : String → String
  headerGet : String → String
  body : String

/-- A response body value, as `Call` distinguishes them: one of the two
structured request-error bodies, a raw `json.RawMessage` (from
`errorToJSON`), or an opaque handler-supplied value. -/
inductive RespBody where
  | validationErr (e : ValidationErrorBody)
  | malformedErr (msg : String)
  | rawJSON (bytes : String)
  | value (tag : String)
deriving DecidableEq, Repr

/-- `%v` rendering of a response body in log messages. -/
def bodyShow : RespBody → String
  | .validationErr e => errMessage (.validation e)
  | .malformedErr m => m
  | .rawJSON s => s
  | .value t => t

/-- The `Response` struct (`util.go` / `response.go`).  `status = 0`
means unset; an `ignore`d response stops the pipeline's own writer. -/
structure ResponseModel where
  ignore : Bool := false
  status : Nat := 0
  body : Option RespBody := none
  headers : List (String × String) := []
deriving DecidableEq, Repr

/-- Outcome of validating a response body against a compiled per-status
response schema (`schema.Validate` in `Call`). -/
inductive RespOutcome where
  | engineErr (msg : String)
  | valid
  | invalid (e : ValidationErrorBody)
deriving DecidableEq, Repr

/-- The external schema/serialization collaborators, as functions: the
compiled gojsonschema property sub-schemas, the JSON well-formedness of
the raw body (`json.RawMessage` loading), `json.Unmarshal` into the
declared body type, per-status response validation, and
`json.Marshal`/`json.MarshalIndent`.  Everything the repository's own
code decides is in the pipeline definitions, not here. -/
structure SchemaOracle where
  bodyParses : String → Except String Unit
  propErrors : String → MapAny → List String
  bodyErrors : String → List String
  unmarshal : String → Except String String
  respCheck : Nat → Option RespBody → RespOutcome
  marshal : RespBody → Except String String
  marshalIndent : RespBody → String → Except String String

/-- The per-request `Data` after materialization (converted maps and the
deserialized body). -/
structure DataModel where
  query : MapAny := []
  params : MapAny := []
  headers : MapAny := []
  body : Option String := none
deriving DecidableEq, Repr

/-! ## Composite-schema validation (`openapi.go:134-222`, `endpoint.go:377-394`) -/

/-- The `required` list of one section's object schema: exactly the
declared parameters of that location marked required
(`openapi.go:213-215`). -/
def requiredNames (ps : List TypedParameter) : List String :=
  (ps.filter (fun p => p.required)).map (fun p => p.name)

/-- The `required`-violation string gojsonschema reports for one missing
property, as `NewJSONValidationError` renders it
(`At <context>: <description>`). -/
def requiredMsg (sec n : String) : String :=
  "At (root)." ++ sec ++ ": " ++ n ++ " is required"

/-- The `required`-keyword violations gojsonschema reports for one
section: one entry per required property missing from the candidate
document. -/
def requiredErrors (sec : String) (req : List String) (m : MapAny) : List String :=
  (req.filter (fun n => (mapGet m n).isNone)).map (fun n => requiredMsg sec n)

/-- All violations reported by validating the candidate document
`{Query, Params, Headers, Body?}` against the endpoint's compiled
composite schema: the required-property violations of each section
(decided by the schema the repository builds), plus whatever the opaque
per-property sub-schemas report on present values. -/
def validateErrors (e : EndpointModel) (o : SchemaOracle)
    (qm pm hm : MapAny) (body : String) : List String :=
  requiredErrors "Query" (requiredNames e.query) qm
    ++ requiredErrors "Params" (requiredNames (e.params.map (fun lp => lp.2))) pm
    ++ requiredErrors "Headers" (requiredNames e.headers) hm
    ++ (if e.bodyRequired ∧ ¬ e.hasBodyType then ["At (root): Body is required"] else [])
    ++ o.propErrors "Query" qm ++ o.propErrors "Params" pm ++ o.propErrors "Headers" hm
    ++ (if e.hasBodyType then o.bodyErrors body else [])

/-! ## Request materializer (`Endpoint.parseRequest`, `endpoint.go:297-405`;
the `endpointObject` variant is line-for-line identical except that its
spec is always present) -/

/-- The index offset added before the declared placeholder index
(`endpoint.go:342-349`): the spec's base-path segment count (0 when the
spec is nil) plus 1 for a versioned endpoint. -/
def pathBase (e : EndpointModel) : Nat :=
  (if e.specPresent then e.basePathLength else 0) + (if e.version ≠ 0 then 1 else 0)

/-- `parseRequest`: read the body, convert query, path, and header
parameters (abort on first conversion failure), validate the candidate
document against the composite schema, and only then deserialize the
body bytes into the declared body type. -/
def parseRequest (e : EndpointModel) (o : SchemaOracle) (r : RequestModel) :
    Except Abort DataModel :=
  let requestBody := r.body
  match queryLoop r.queryGet e.query [] with
  | .error a => .error a
  | .ok qm =>
    match pathLoop (pathBase e) (splitSlash r.path) e.params [] with
    | .error a => .error a
    | .ok pm =>
      match headerLoop r.headerGet e.headers [] with
      | .error a => .error a
      | .ok hm =>
        let validated : Except Abort Unit :=
          if e.hasDataSchema then
            match (if e.hasBodyType then o.bodyParses requestBody else .ok ()) with
            | .error cause => .error (.gerr (.malformed (malformedJSONMsg cause)))
            | .ok _ =>
              let errs := validateErrors e o qm pm hm requestBody
              if errs.isEmpty then .ok ()
              else .error (.gerr (.validation (mkValidationError errs)))
          else .ok ()
        match validated with
        | .error a => .error a
        | .ok _ =>
          if e.hasBodyType then
            match o.unmarshal requestBody with
            | .ok b => .ok { query := qm, params := pm, headers := hm, body := some b }
            | .error cause => .error (.gerr (.malformed (malformedJSONMsg cause)))
          else .ok { query := qm, params := pm, headers := hm, body := none }

/-! ## Panic-safe dispatcher (`endpoint.go:407-423` and `985-995`) -/

/-- What the handler chain returns: a value-and-error pair, or an
unrecovered runtime panic carrying its message. -/
inductive HandlerOut where
  | resp (r : ResponseModel)
  | value (tag : String)
deriving DecidableEq, Repr

inductive HandlerBehavior where
  | ret (out : Option HandlerOut) (err : Option GoError)
  | panics (msg : String)
deriving DecidableEq, Repr

/-- Result of the guarded dispatch: the handler's output and error, plus
the number of panic diagnostics written to the operational log by the
deferred `recover` block. -/
structure DispatchResult where
  output : Option HandlerOut := none
  err : Option GoError := none
  panicLogs : Nat := 0
deriving DecidableEq, Repr

/-- `Endpoint.runUserDefinedFunc`: nil-handler check, then the guarded
call; a recovered panic becomes the internal error
`a fatal error occurred: <panic>` and logs its diagnostic exactly once. -/
def runUserDefinedFunc (e : EndpointModel) (h : DataModel → HandlerBehavior)
    (d : DataModel) : DispatchResult :=
  if ¬ e.handlerDefined then
    { err := some (.generic "endpoint function is not defined") }
  else
    match h d with
    | .ret out err => { output := out, err := err }
    | .panics m =>
      { err := some (.generic ("a fatal error occurred: " ++ m)), panicLogs := 1 }

/-- `endpointObject.runUserDefinedFunc`: the guarded call without the
nil checks. -/
def runUserDefinedFuncV2 (h : DataModel → HandlerBehavior) (d : DataModel) : DispatchResult :=
  match h d with
  | .ret out err => { output := out, err := err }
  | .panics m =>
    { err := some (.generic ("a fatal error occurred: " ++ m)), panicLogs := 1 }

/-! ## Response resolver (`Endpoint.Call`, `endpoint.go:212-295`;
`endpointObject.Call`, `endpoint.go:782-876`) -/

/-- Everything externally observable about one `Call`: the status passed
to `WriteHeader` (if reached), the bytes written, the final local `res`
value, the accumulated non-fatal error strings, the observer-hook
invocation, the `printError` log count, the dispatcher's panic-diagnostic
count, whether the `Ignore` early return fired, and which serializer
variant ran (`some (some s)` = `MarshalIndent` with indent string `s`,
`some none` = plain `Marshal`). -/
structure CallResult where
  status : Option Nat := none
  bodyBytes : Option String := none
  resFinal : Option ResponseModel := none
  errs : List String := []
  hook : Option (ResponseModel × Option GoError) := none
  printErrorCount : Nat := 0
  panicLogs : Nat := 0
  ignored : Bool := false
  usedIndent : Option (Option String) := none
deriving DecidableEq, Repr

/-- The error-classification / output-normalization switch shared by both
`Call` variants (`endpoint.go:225-249`): a `JSONValidationError` or
`MalformedJSONError` becomes a 400 with the structured body, any other
error a 500 with the `errorToJSON` envelope; otherwise the handler's
`Response` is used as-is (`none` = the `Ignore` early return) and a
non-`Response` output becomes the body of a fresh response. -/
def classify (output : Option HandlerOut) (err : Option GoError) : Option ResponseModel :=
  match err with
  | some (.validation ve) => some { status := 400, body := some (.validationErr ve) }
  | some (.malformed m) => some { status := 400, body := some (.malformedErr m) }
  | some (.generic m) => some { status := 500, body := some (.rawJSON (errorToJSON m)) }
  | none =>
    match output with
    | some (.resp resp) => if resp.ignore then none else some resp
    | some (.value t) => some { body := some (.value t) }
    | none => some { body := none }

/-- `if res.Status == 0 { res.Status = 200 }`. -/
def normalizeStatus (res : ResponseModel) : ResponseModel :=
  if res.status = 0 then { res with status := 200 } else res

/-- Non-fatal error strings contributed by validating the body against
the compiled response schema for the resolved status, if one exists
(`endpoint.go:255-262`). -/
def respSchemaErrs (e : EndpointModel) (o : SchemaOracle) (res : ResponseModel) : List String :=
  if res.status ∈ e.responseSchemaCodes then
    match o.respCheck res.status res.body with
    | .engineErr m => ["response body contains malformed json: " ++ m]
    | .valid => []
    | .invalid ve =>
      ["response body failed validation for status " ++ toString res.status ++ ": " ++
        errMessage (.validation ve)]
  else []

/-- The error value handed to the observer hook / log: the joined
non-fatal error strings if any accumulated, else the original pipeline
error (possibly nil). -/
def finalErr (errs : List String) (err0 : Option GoError) : Option GoError :=
  if errs.isEmpty then err0 else some (.generic (String.intercalate "\n  " errs))

/-- The serializer `Endpoint.Call` picks (`endpoint.go:271-275`):
`MarshalIndent` with the configured indent when a spec is present and its
indent level is positive, else plain `Marshal`. -/
def marshalChoiceV1 (e : EndpointModel) (o : SchemaOracle) (b : RespBody) :
    Except String String :=
  if e.specPresent ∧ e.jsonIndent > 0 then o.marshalIndent b (spaces e.jsonIndent)
  else o.marshal b

/-- Which serializer invocation `marshalChoiceV1` stands for, for the
`usedIndent` observation. -/
def usedIndentV1 (e : EndpointModel) : Option (Option String) :=
  if e.specPresent ∧ e.jsonIndent > 0 then some (some (spaces e.jsonIndent)) else some none

/-- Tail of `Endpoint.Call` after dispatch: classification, status
defaulting, response-schema observation, serialization, write, and
hook/log dispatch.  Note the nil-body branch returns immediately after
`WriteHeader` (`endpoint.go:264-267`), reaching neither the hook nor the
log. -/
def respondV1 (e : EndpointModel) (o : SchemaOracle) (output : Option HandlerOut)
    (err0 : Option GoError) (panicLogs : Nat) : CallResult :=
  match classify output err0 with
  | none => { ignored := true, panicLogs := panicLogs }
  | some res0 =>
    let res := normalizeStatus res0
    let errs := respSchemaErrs e o res
    match res.body with
    | none =>
      { status := some res.status, resFinal := some res, errs := errs, panicLogs := panicLogs }
    | some b =>
      match marshalChoiceV1 e o b with
      | .ok bytes =>
        let fe := finalErr errs err0
        if e.specPresent ∧ e.hookPresent then
          { status := some res.status, bodyBytes := some bytes, resFinal := some res,
            errs := errs, hook := some (res, fe), panicLogs := panicLogs,
            usedIndent := usedIndentV1 e }
        else
          { status := some res.status, bodyBytes := some bytes, resFinal := some res,
            errs := errs, printErrorCount := 1, panicLogs := panicLogs,
            usedIndent := usedIndentV1 e }
      | .error m =>
        let errs2 := errs ++ ["failed to marshal body (" ++ bodyShow b ++ "): " ++ m]
        let res2 := { res with status := 500 }
        let fe := finalErr errs2 err0
        if e.specPresent ∧ e.hookPresent then
          { status := some 500, bodyBytes := some (errorToJSON m), resFinal := some res2,
            errs := errs2, hook := some (res2, fe), panicLogs := panicLogs,
            usedIndent := usedIndentV1 e }
        else
          { status := some 500, bodyBytes := some (errorToJSON m), resFinal := some res2,
            errs := errs2, printErrorCount := 1, panicLogs := panicLogs,
            usedIndent := usedIndentV1 e }

/-- `Endpoint.Call` with the endpoint threaded through, so that its
preservation is a statement, not a convention: each arm returns the
endpoint exactly as the source leaves it (the source contains no
assignment to any `e` field).  A materializer fault (`Abort.fault`)
escapes `Call`, which installs no `recover`. -/
def callV1T (e : EndpointModel) (o : SchemaOracle) (r : RequestModel)
    (h : DataModel → HandlerBehavior) : EndpointModel × Except String CallResult :=
  match parseRequest e o r with
  | .error (.fault m) => (e, .error m)
  | .error (.gerr ge) => (e, .ok (respondV1 e o none (some ge) 0))
  | .ok d =>
    let dr := runUserDefinedFunc e h d
    (e, .ok (respondV1 e o dr.output dr.err dr.panicLogs))

/-- `Endpoint.Call`, result view. -/
def callV1 (e : EndpointModel) (o : SchemaOracle) (r : RequestModel)
    (h : DataModel → HandlerBehavior) : Except String CallResult :=
  (callV1T e o r h).2

/-- `JSONIndentHeader` (`util.go:8-10`). -/
def jsonIndentHeader : String := "Oas-Json-Indent"

/-- Tail of `endpointObject.Call` after dispatch (`endpoint.go:820-876`).
Differences from `respondV1`: the nil-body branch falls through to the
hook/log; a per-request `Oas-Json-Indent` header replaces the indent
*level test*, but the indent string handed to `MarshalIndent` is built
from `e.spec.jsonIndent` (`endpoint.go:852`); the hook guard reads the
always-present spec. -/
def respondV2 (e : EndpointModel) (o : SchemaOracle) (r : RequestModel)
    (output : Option HandlerOut) (err0 : Option GoError) (panicLogs : Nat) : CallResult :=
  match classify output err0 with
  | none => { ignored := true, panicLogs := panicLogs }
  | some res0 =>
    let res := normalizeStatus res0
    let errs := respSchemaErrs e o res
    match res.body with
    | none =>
      let fe := finalErr errs err0
      if e.hookPresent then
        { status := some res.status, resFinal := some res, errs := errs,
          hook := some (res, fe), panicLogs := panicLogs }
      else
        { status := some res.status, resFinal := some res, errs := errs,
          printErrorCount := 1, panicLogs := panicLogs }
    | some b =>
      let hv := r.headerGet jsonIndentHeader
      let ie : Int × List String :=
        if hv = "" then (e.jsonIndent, [])
        else
          match goAtoi hv with
          | .error m =>
            (e.jsonIndent,
             ["Expected header '" ++ jsonIndentHeader ++ "' to be an integer or empty, found "
               ++ hv ++ ": " ++ m])
          | .ok i => (i, [])
      let errs1 := errs ++ ie.2
      let used : Option (Option String) :=
        if ie.1 > 0 then some (some (spaces e.jsonIndent)) else some none
      let mres : Except String String :=
        if ie.1 > 0 then o.marshalIndent b (spaces e.jsonIndent) else o.marshal b
      match mres with
      | .ok bytes =>
        let fe := finalErr errs1 err0
        if e.hookPresent then
          { status := some res.status, bodyBytes := some bytes, resFinal := some res,
            errs := errs1, hook := some (res, fe), panicLogs := panicLogs, usedIndent := used }
        else
          { status := some res.status, bodyBytes := some bytes, resFinal := some res,
            errs := errs1, printErrorCount := 1, panicLogs := panicLogs, usedIndent := used }
      | .error m =>
        let errs2 := errs1 ++ ["failed to marshal body (" ++ bodyShow b ++ "): " ++ m]
        let res2 := { res with status := 500 }
        let fe := finalErr errs2 err0
        if e.hookPresent then
          { status := some 500, bodyBytes := some (errorToJSON m), resFinal := some res2,
            errs := errs2, hook := some (res2, fe), panicLogs := panicLogs, usedIndent := used }
        else
          { status := some 500, bodyBytes := some (errorToJSON m), resFinal := some res2,
            errs := errs2, printErrorCount := 1, panicLogs := panicLogs, usedIndent := used }

/-- `endpointObject.Call` with the endpoint threaded through. -/
def callV2T (e : EndpointModel) (o : SchemaOracle) (r : RequestModel)
    (h : DataModel → HandlerBehavior) : EndpointModel × Except String CallResult :=
  match parseRequest e o r with
  | .error (.fault m) => (e, .error m)
  | .error (.gerr ge) => (e, .ok (respondV2 e o r none (some ge) 0))
  | .ok d =>
    let dr := runUserDefinedFuncV2 h d
    (e, .ok (respondV2 e o r dr.output dr.err dr.panicLogs))

/-- `endpointObject.Call`, result view. -/
def callV2 (e : EndpointModel) (o : SchemaOracle) (r : RequestModel)
    (h : DataModel → HandlerBehavior) : Except String CallResult :=
  (callV2T e o r h).2

/-! ## Middleware composer (`openapi.go:255-262`, `endpoint.go:738-744`) -/

/-- The Go wrap loop, index-faithfully:
`for i := len(middleware) - 1; i >= 0; i-- { handler = middleware[i](handler) }`.
`wrapLoopAux mws (n+1) h` performs the iteration with `i = n` and
recurses downward. -/
def wrapLoopAux {α : Type _} (mws : List (α → α)) : Nat → α → α
  | 0, h => h
  | n + 1, h => wrapLoopAux mws n (((mws.get? n).getD id) h)

/-- The composed handler stored on the endpoint by
`NewOpenAPI` / `endpointObject.Define`. -/
def composeHandler {α : Type _} (mws : List (α → α)) (f : α) : α :=
  wrapLoopAux mws mws.length f

/-! ## Oracle views and observations -/

/-- Whether an `Except` carries a success. -/
def exceptIsOk {E A : Type _} : Except E A → Bool
  | .ok _ => true
  | .error _ => false

/-- The oracle with its response-schema checker replaced (the request
side of the oracle is untouched). -/
def setRespCheck (o : SchemaOracle) (rc : Nat → Option RespBody → RespOutcome) : SchemaOracle :=
  { o with respCheck := rc }

/-- The oracle with its body deserializer replaced. -/
def setUnmarshal (o : SchemaOracle) (u : String → Except String String) : SchemaOracle :=
  { o with unmarshal := u }

/-- The client-visible part of `respondV1`'s outcome — status written,
bytes written, final `res` — computed without consulting the
response-schema checker.  `respondV1_writeView` proves it agrees with
`respondV1`. -/
def writeView (e : EndpointModel) (o : SchemaOracle) (output : Option HandlerOut)
    (err0 : Option GoError) : Option Nat × Option String × Option ResponseModel :=
  match classify output err0 with
  | none => (none, none, none)
  | some res0 =>
    let res := normalizeStatus res0
    match res.body with
    | none => (some res.status, none, some res)
    | some b =>
      match marshalChoiceV1 e o b with
      | .ok bytes => (some res.status, some bytes, some res)
      | .error m => (some 500, some (errorToJSON m), some { res with status := 500 })

/-! ## Observation projections over a `Call` outcome -/

def resultStatus : Except String CallResult → Option (Option Nat)
  | .ok cr => some cr.status
  | .error _ => none

def resultBytes : Except String CallResult → Option (Option String)
  | .ok cr => some cr.bodyBytes
  | .error _ => none

def resultRes : Except String CallResult → Option (Option ResponseModel)
  | .ok cr => some cr.resFinal
  | .error _ => none

def resultHook : Except String CallResult → Option (Option (ResponseModel × Option GoError))
  | .ok cr => some cr.hook
  | .error _ => none

def resultHookIsSome : Except String CallResult → Option Bool
  | .ok cr => some cr.hook.isSome
  | .error _ => none

def resultPrintCount : Except String CallResult → Option Nat
  | .ok cr => some cr.printErrorCount
  | .error _ => none

def resultPanicLogs : Except String CallResult → Option Nat
  | .ok cr => some cr.panicLogs
  | .error _ => none

def resultIgnored : Except String CallResult → Option Bool
  | .ok cr => some cr.ignored
  | .error _ => none

def resultUsedIndent : Except String CallResult → Option (Option (Option String))
  | .ok cr => some cr.usedIndent
  | .error _ => none

/-- Whether the resolved response body is a validation error naming the
given required parameter of the given section. -/
def bodyNamesRequired (x : Except String CallResult) (sec n : String) : Bool :=
  match x with
  | .ok cr =>
    match cr.resFinal with
    | some res =>
      match res.body with
      | some (.validationErr ve) => decide (requiredMsg sec n ∈ ve.errors)
      | _ => false
    | none => false
  | .error _ => false

/-! ## Concrete fixtures used by counterexamples and witnesses -/

/-- A schema oracle whose external collaborators all succeed trivially. -/
def oracleTriv : SchemaOracle where
  bodyParses := fun _ => .ok ()
  propErrors := fun _ _ => []
  bodyErrors := fun _ => []
  unmarshal := fun s => .ok s
  respCheck := fun _ _ => .valid
  marshal := fun b => .ok (bodyShow b)
  marshalIndent := fun b _ => .ok (bodyShow b)

/-- The `/search` endpoint of the repository's example, reduced to its
optional integer `limit` query parameter. -/
def epLimit : EndpointModel where
  query := [⟨"limit", false, .int⟩]
  params := []
  headers := []
  hasBodyType := false
  bodyRequired := false
  hasDataSchema := true
  responseSchemaCodes := []
  version := 0
  specPresent := true
  basePathLength := 0
  jsonIndent := 2
  hookPresent := false
  handlerDefined := true

/-- `GET /search?limit=abc`. -/
def reqLimitAbc : RequestModel where
  path := "/search"
  queryGet := fun n => if n = "limit" then "abc" else ""
  headerGet := fun _ => ""
  body := ""

/-- A request with no query parameters, headers, or body. -/
def reqPlain : RequestModel where
  path := "/search"
  queryGet := fun _ => ""
  headerGet := fun _ => ""
  body := ""

/-- A handler that returns `(nil, nil)`. -/
def hRet : DataModel → HandlerBehavior := fun _ => .ret none none

/-- A handler chain that panics. -/
def hPanicBoom : DataModel → HandlerBehavior := fun _ => .panics "boom"

/-- A handler returning `Response{Status: 200, Body: "hello"}`. -/
def hBody : DataModel → HandlerBehavior :=
  fun _ => .ret (some (.resp { status := 200, body := some (.value "hello") })) none

/-- The endpoint with a required string query parameter `q` next to the
optional integer `limit` (the spec's `/search` scenario). -/
def epQandLimit : EndpointModel :=
  { epLimit with query := [⟨"q", true, .str⟩, ⟨"limit", false, .int⟩] }

/-- An endpoint declaring only the required query parameter `q`. -/
def epRequiredQ : EndpointModel := { epLimit with query := [⟨"q", true, .str⟩] }

/-- An endpoint with no parameters and an observer hook registered. -/
def epHooked : EndpointModel := { epLimit with query := [], hookPresent := true }

/-- A versioned endpoint (`/v1/things/{id}`) whose path parameter sits at
declared placeholder index 2. -/
def epVersionedPath : EndpointModel :=
  { epLimit with query := [], params := [(2, ⟨"id", true, .str⟩)], version := 1 }

/-- A request whose path `/v1/things` splits into three segments. -/
def reqShortPath : RequestModel := { reqPlain with path := "/v1/things" }

/-- A request carrying `Oas-Json-Indent: 4`. -/
def reqIndent4 : RequestModel :=
  { reqPlain with headerGet := fun n => if n = "Oas-Json-Indent" then "4" else "" }

/-- An endpoint with a declared body type and no parameters. -/
def epBodyDecl : EndpointModel := { epLimit with query := [], hasBodyType := true }

/-- A request carrying the body `[]`. -/
def reqBodyArr : RequestModel := { reqPlain with body := "[]" }

/-- An oracle whose body deserializer rejects every input, as
`json.Unmarshal` does when the concrete target type rejects the bytes. -/
def oracleUnmarshalFail : SchemaOracle :=
  { oracleTriv with
    unmarshal := fun _ => .error "json: cannot unmarshal array into Go value of type main.Result" }

end Oas

namespace Oas

/-! ## Helper lemmas -/

/-- The index-descending wrap loop computes the right-nested application
of the prefix it has consumed. -/
theorem wrapLoopAux_take {α : Type _} (mws : List (α → α)) :
    ∀ (n : Nat), n ≤ mws.length → ∀ (f : α),
      wrapLoopAux mws n f = (mws.take n).foldr (fun m h => m h) f := by
  intro n
  induction n with
  | zero => intro _ f; simp [wrapLoopAux]
  | succ k ih =>
    intro hle f
    have hk : k < mws.length := Nat.lt_of_succ_le hle
    have hm : mws.get? k = some (mws.get ⟨k, hk⟩) := List.get?_eq_get hk
    rw [wrapLoopAux, hm]
    simp only [Option.getD_some]
    rw [ih (Nat.le_of_lt hk)]
    have hm2 : mws[k]? = some (mws.get ⟨k, hk⟩) := by
      rw [← List.get?_eq_getElem?]; exact hm
    have htake : List.take (k + 1) mws = List.take k mws ++ [mws.get ⟨k, hk⟩] := by
      rw [List.take_succ, hm2]; rfl
    rw [htake, List.foldr_append]
    rfl

/-- `respondV1` on a generic (internal) error: status 500 and the
`errorToJSON` envelope, with the dispatcher's panic-diagnostic count
passed through — independent of the response-schema checker and of
whether serialization succeeds. -/
theorem respondV1_generic (e : EndpointModel) (o : SchemaOracle) (m : String) (pl : Nat) :
    (respondV1 e o none (some (.generic m)) pl).status = some 500 ∧
    (respondV1 e o none (some (.generic m)) pl).resFinal =
      some { status := 500, body := some (.rawJSON (errorToJSON m)) } ∧
    (respondV1 e o none (some (.generic m)) pl).panicLogs = pl := by
  unfold respondV1
  simp only [classify, normalizeStatus]
  norm_num
  cases hm : marshalChoiceV1 e o (.rawJSON (errorToJSON m)) with
  | ok bytes =>
    by_cases hcond : e.specPresent = true ∧ e.hookPresent = true <;> simp [hcond]
  | error m2 =>
    by_cases hcond : e.specPresent = true ∧ e.hookPresent = true <;> simp [hcond]

/-- `respondV1` on a `JSONValidationError`: status 400 with the
structured body, as long as the chosen serializer accepts the body. -/
theorem respondV1_validation (e : EndpointModel) (o : SchemaOracle)
    (ve : ValidationErrorBody) (pl : Nat)
    (hmk : exceptIsOk (marshalChoiceV1 e o (.validationErr ve)) = true) :
    (respondV1 e o none (some (.validation ve)) pl).status = some 400 ∧
    (respondV1 e o none (some (.validation ve)) pl).resFinal =
      some { status := 400, body := some (.validationErr ve) } := by
  unfold respondV1
  simp only [classify, normalizeStatus]
  norm_num
  cases hm : marshalChoiceV1 e o (.validationErr ve) with
  | ok bytes =>
    by_cases hcond : e.specPresent = true ∧ e.hookPresent = true <;> simp [hcond]
  | error m2 =>
    rw [hm] at hmk
    exact absurd hmk (by simp [exceptIsOk])

/-- `respondV1` on a `MalformedJSONError`: status 400 with the malformed
body, as long as the chosen serializer accepts the body. -/
theorem respondV1_malformed (e : EndpointModel) (o : SchemaOracle) (m : String) (pl : Nat)
    (hmk : exceptIsOk (marshalChoiceV1 e o (.malformedErr m)) = true) :
    (respondV1 e o none (some (.malformed m)) pl).status = some 400 ∧
    (respondV1 e o none (some (.malformed m)) pl).resFinal =
      some { status := 400, body := some (.malformedErr m) } := by
  unfold respondV1
  simp only [classify, normalizeStatus]
  norm_num
  cases hm : marshalChoiceV1 e o (.malformedErr m) with
  | ok bytes =>
    by_cases hcond : e.specPresent = true ∧ e.hookPresent = true <;> simp [hcond]
  | error m2 =>
    rw [hm] at hmk
    exact absurd hmk (by simp [exceptIsOk])

/-- The query loop aborts with the wrapped conversion error of the first
parameter whose non-empty raw value fails conversion. -/
theorem queryLoop_first_failure (get : String → String) (p : TypedParameter) (msg : String)
    (qs₁ qs₂ : List TypedParameter)
    (hok : ∀ q ∈ qs₁, get q.name = "" ∨ ∃ v, convertParamType q (get q.name) = .ok v)
    (hne : ¬ get p.name = "")
    (hfail : convertParamType p (get p.name) = .error msg) :
    ∀ acc, queryLoop get (qs₁ ++ p :: qs₂) acc =
      .error (.gerr (.generic ("failed to convert query parameter " ++ p.name ++ ": " ++ msg))) := by
  induction qs₁ with
  | nil =>
    intro acc
    show queryLoop get (p :: qs₂) acc = _
    unfold queryLoop
    rw [if_neg hne, hfail]
  | cons q qs ih =>
    intro acc
    have hq := hok q (List.mem_cons_self _ _)
    have ih' := ih (fun x hx => hok x (List.mem_cons_of_mem _ hx))
    show queryLoop get (q :: (qs ++ p :: qs₂)) acc = _
    unfold queryLoop
    rcases hq with hq | ⟨v, hv⟩
    · rw [if_pos hq]; exact ih' _
    · by_cases hemp : get q.name = ""
      · rw [if_pos hemp]; exact ih' _
      · rw [if_neg hemp, hv]; exact ih' _

/-- When the per-location loops all succeed, the composite schema is
compiled, and the body bytes load, a non-empty violation list makes
`parseRequest` return exactly the `JSONValidationError` carrying it. -/
theorem parseRequest_validation_fails (e : EndpointModel) (o : SchemaOracle) (r : RequestModel)
    (qm pm hm : MapAny)
    (hq : queryLoop r.queryGet e.query [] = .ok qm)
    (hp : pathLoop (pathBase e) (splitSlash r.path) e.params [] = .ok pm)
    (hh : headerLoop r.headerGet e.headers [] = .ok hm)
    (hds : e.hasDataSchema = true)
    (hbp : e.hasBodyType = true → o.bodyParses r.body = .ok ())
    (hne : validateErrors e o qm pm hm r.body ≠ []) :
    parseRequest e o r =
      .error (.gerr (.validation (mkValidationError (validateErrors e o qm pm hm r.body)))) := by
  unfold parseRequest
  rw [hq, hp, hh]
  have hbody : (if e.hasBodyType then o.bodyParses r.body else Except.ok ()) = Except.ok () := by
    cases hbt : e.hasBodyType with
    | true => simpa using hbp hbt
    | false => simp
  have hemp : (validateErrors e o qm pm hm r.body).isEmpty = false := by
    cases hl : validateErrors e o qm pm hm r.body with
    | nil => exact absurd hl hne
    | cons a t => rfl
  rw [hds]
  simp only [if_true, hbody, hemp]
  rfl

/-- When the composite schema passes but the declared body type rejects
the bytes, `parseRequest` returns the `MalformedJSONError`. -/
theorem parseRequest_unmarshal_fail (e : EndpointModel) (o : SchemaOracle) (r : RequestModel)
    (qm pm hm : MapAny) (cause : String)
    (hq : queryLoop r.queryGet e.query [] = .ok qm)
    (hp : pathLoop (pathBase e) (splitSlash r.path) e.params [] = .ok pm)
    (hh : headerLoop r.headerGet e.headers [] = .ok hm)
    (hds : e.hasDataSchema = true)
    (hbt : e.hasBodyType = true)
    (hbp : o.bodyParses r.body = .ok ())
    (hemp : validateErrors e o qm pm hm r.body = [])
    (hum : o.unmarshal r.body = .error cause) :
    parseRequest e o r = .error (.gerr (.malformed (malformedJSONMsg cause))) := by
  unfold parseRequest
  rw [hq, hp, hh, hds, hbt]
  simp only [if_true, hbp, hemp, hum]
  rfl

/-- A required name missing from a section's map contributes its
`required`-violation entry. -/
theorem mem_requiredErrors (sec : String) (req : List String) (m : MapAny) (n : String)
    (hn : n ∈ req) (hmiss : mapGet m n = none) :
    requiredMsg sec n ∈ requiredErrors sec req m := by
  unfold requiredErrors
  exact List.mem_map_of_mem _ (List.mem_filter.mpr ⟨hn, by simp [hmiss]⟩)

/-- A declared parameter marked required appears in the section schema's
`required` list. -/
theorem name_mem_requiredNames (ps : List TypedParameter) (p : TypedParameter)
    (hmem : p ∈ ps) (hreq : p.required = true) : p.name ∈ requiredNames ps := by
  unfold requiredNames
  exact List.mem_map_of_mem _ (List.mem_filter.mpr ⟨hmem, by simp [hreq]⟩)

/-- `respondV1` agrees with the checker-free `writeView` on the
client-visible fields. -/
theorem respondV1_writeView (e : EndpointModel) (o : SchemaOracle) (out : Option HandlerOut)
    (err0 : Option GoError) (pl : Nat) :
    (respondV1 e o out err0 pl).status = (writeView e o out err0).1 ∧
    (respondV1 e o out err0 pl).bodyBytes = (writeView e o out err0).2.1 ∧
    (respondV1 e o out err0 pl).resFinal = (writeView e o out err0).2.2 := by
  unfold respondV1 writeView
  cases hc : classify out err0 with
  | none => simp
  | some res0 =>
    dsimp only
    cases hb : (normalizeStatus res0).body with
    | none => simp [hb]
    | some b =>
      cases hm : marshalChoiceV1 e o b with
      | ok bytes =>
        by_cases hcond : e.specPresent = true ∧ e.hookPresent = true <;> simp [hb, hm, hcond]
      | error m2 =>
        by_cases hcond : e.specPresent = true ∧ e.hookPresent = true <;> simp [hb, hm, hcond]

/-- `writeView` never consults the response-schema checker. -/
theorem writeView_setRespCheck (e : EndpointModel) (o : SchemaOracle)
    (rc : Nat → Option RespBody → RespOutcome) (out : Option HandlerOut)
    (err0 : Option GoError) :
    writeView e (setRespCheck o rc) out err0 = writeView e o out err0 := rfl

/-- Request materialization never consults the response-schema checker. -/
theorem parseRequest_setRespCheck (e : EndpointModel) (o : SchemaOracle)
    (rc : Nat → Option RespBody → RespOutcome) (r : RequestModel) :
    parseRequest e (setRespCheck o rc) r = parseRequest e o r := rfl

/-- In `endpointObject.Call`'s tail, every non-ignored outcome reaches
the hook/log dispatch: the hook fires when registered (with the final
response), and `printError` fires exactly once otherwise. -/
theorem respondV2_hook_dispatch (e : EndpointModel) (o : SchemaOracle) (r : RequestModel)
    (out : Option HandlerOut) (err0 : Option GoError) (pl : Nat)
    (hnig : (respondV2 e o r out err0 pl).ignored = false) :
    (e.hookPresent = true → (respondV2 e o r out err0 pl).hook.isSome = true) ∧
    (e.hookPresent = false → (respondV2 e o r out err0 pl).printErrorCount = 1) ∧
    (∀ res err, (respondV2 e o r out err0 pl).hook = some (res, err) →
      (respondV2 e o r out err0 pl).resFinal = some res) := by
  unfold respondV2 at hnig ⊢
  cases hc : classify out err0 with
  | none => rw [hc] at hnig; simp at hnig
  | some res0 =>
    clear hnig
    dsimp only
    cases hb : (normalizeStatus res0).body with
    | none => by_cases hhp : e.hookPresent = true <;> simp [hb, hhp]
    | some b =>
      simp only [hb]
      repeat' split
      all_goals by_cases hhp : e.hookPresent = true <;> simp_all

end Oas

namespace Oas

/-! ## Claim theorems -/

/-- C1 (counterexample): the claim "a declared parameter whose non-empty
raw value fails textual parsing yields HTTP 400 ... never status 500" is
false on the code: for `GET /search?limit=abc` against an endpoint
declaring the integer query parameter `limit`, `Call` classifies the
`errors.WithMessage`-wrapped `strconv` error as neither
`JSONValidationError` nor `MalformedJSONError` and answers 500, not
400. -/
theorem C1_paramError_counterexample :
    resultStatus (callV1 epLimit oracleTriv reqLimitAbc hRet) = some (some 500) ∧
    resultStatus (callV1 epLimit oracleTriv reqLimitAbc hRet) ≠ some (some 400) := by
  constructor <;> decide

/-- C1 (amended): when the first query parameter with a non-empty raw
value failing conversion is `p`, the pipeline aborts materialization and
responds with HTTP status 500 carrying the generic internal-error
envelope whose details string references `p` (`failed to convert query
parameter <name>: <strconv error>`) — not a 400 field-level body. -/
theorem C1_paramError_amended (e : EndpointModel) (o : SchemaOracle) (r : RequestModel)
    (h : DataModel → HandlerBehavior)
    (qs₁ qs₂ : List TypedParameter) (p : TypedParameter) (msg : String)
    (hq : e.query = qs₁ ++ p :: qs₂)
    (hok : ∀ q ∈ qs₁, r.queryGet q.name = "" ∨ ∃ v, convertParamType q (r.queryGet q.name) = .ok v)
    (hne : ¬ r.queryGet p.name = "")
    (hfail : convertParamType p (r.queryGet p.name) = .error msg) :
    resultStatus (callV1 e o r h) = some (some 500) ∧
    resultRes (callV1 e o r h) = some (some
      { status := 500, body := some (.rawJSON (errorToJSON
          ("failed to convert query parameter " ++ p.name ++ ": " ++ msg))) }) := by
  have hql := queryLoop_first_failure r.queryGet p msg qs₁ qs₂ hok hne hfail []
  have hpr : parseRequest e o r = .error (.gerr (.generic
      ("failed to convert query parameter " ++ p.name ++ ": " ++ msg))) := by
    unfold parseRequest
    rw [hq, hql]
  have hg := respondV1_generic e o ("failed to convert query parameter " ++ p.name ++ ": " ++ msg) 0
  unfold callV1 callV1T
  rw [hpr]
  simp only [resultStatus, resultRes]
  exact ⟨by rw [hg.1], by rw [hg.2.1]⟩

/-- C1 (witness): the amended theorem at `GET /search?limit=abc`. -/
theorem C1_paramError_amended_witness :
    resultStatus (callV1 epLimit oracleTriv reqLimitAbc hRet) = some (some 500) ∧
    resultRes (callV1 epLimit oracleTriv reqLimitAbc hRet) = some (some
      { status := 500, body := some (.rawJSON (errorToJSON
          ("failed to convert query parameter limit: " ++
            "strconv.Atoi: parsing \"abc\": invalid syntax"))) }) :=
  C1_paramError_amended epLimit oracleTriv reqLimitAbc hRet [] [] ⟨"limit", false, .int⟩
    "strconv.Atoi: parsing \"abc\": invalid syntax" rfl
    (fun q hq => absurd hq (List.not_mem_nil q)) (by decide) rfl

/-- C2 (confirmed): a handler chain that panics during dispatch is
recovered inside `runUserDefinedFunc` (the call returns a value instead
of propagating — the process does not terminate), the panic becomes the
internal error `a fatal error occurred: <panic>`, `Call` responds with
status 500 whose body is the generic `errorToJSON` envelope
`{"message":...,"details":<one string>}`, and the dispatcher records the
panic diagnostic exactly once. -/
theorem C2_panic_recovery (e : EndpointModel) (o : SchemaOracle) (r : RequestModel)
    (h : DataModel → HandlerBehavior) (d : DataModel) (m : String)
    (hparse : parseRequest e o r = .ok d)
    (hdef : e.handlerDefined = true)
    (hpanic : h d = .panics m) :
    resultStatus (callV1 e o r h) = some (some 500) ∧
    resultRes (callV1 e o r h) = some (some
      { status := 500, body := some (.rawJSON (errorToJSON ("a fatal error occurred: " ++ m))) }) ∧
    resultPanicLogs (callV1 e o r h) = some 1 := by
  have hrun : runUserDefinedFunc e h d =
      { err := some (.generic ("a fatal error occurred: " ++ m)), panicLogs := 1 } := by
    unfold runUserDefinedFunc
    rw [hdef]
    simp [hpanic]
  have hg := respondV1_generic e o ("a fatal error occurred: " ++ m) 1
  unfold callV1 callV1T
  rw [hparse]
  simp only [hrun, resultStatus, resultRes, resultPanicLogs]
  exact ⟨by rw [hg.1], by rw [hg.2.1], by rw [hg.2.2]⟩

/-- C2 (witness): a panicking handler on the `/search` endpoint. -/
theorem C2_panic_recovery_witness :
    resultStatus (callV1 epLimit oracleTriv reqPlain hPanicBoom) = some (some 500) ∧
    resultRes (callV1 epLimit oracleTriv reqPlain hPanicBoom) = some (some
      { status := 500,
        body := some (.rawJSON (errorToJSON ("a fatal error occurred: " ++ "boom"))) }) ∧
    resultPanicLogs (callV1 epLimit oracleTriv reqPlain hPanicBoom) = some 1 :=
  C2_panic_recovery epLimit oracleTriv reqPlain hPanicBoom {} "boom" rfl rfl rfl

/-- C3 (counterexample): the claim "every request omitting a required
parameter yields 400 naming it" is false on the code: a request omitting
the required `q` while also carrying `limit=abc` aborts in the query loop
before composite-schema validation and answers 500, not 400. -/
theorem C3_missingRequired_counterexample :
    resultStatus (callV1 epQandLimit oracleTriv reqLimitAbc hRet) = some (some 500) ∧
    resultStatus (callV1 epQandLimit oracleTriv reqLimitAbc hRet) ≠ some (some 400) := by
  constructor <;> decide

/-- C3 (amended): provided the three parameter loops complete (every
supplied declared parameter converts and the path accesses stay in
bounds), the composite schema is compiled, the body bytes load, and the
serializer accepts the error body, a request whose materialized section
map lacks a required parameter fails validation and `Call` answers 400
with a validation-error body naming that parameter. -/
theorem C3_missingRequired_amended (e : EndpointModel) (o : SchemaOracle) (r : RequestModel)
    (h : DataModel → HandlerBehavior) (sec : String) (p : TypedParameter) (qm pm hm : MapAny)
    (hq : queryLoop r.queryGet e.query [] = .ok qm)
    (hp : pathLoop (pathBase e) (splitSlash r.path) e.params [] = .ok pm)
    (hh : headerLoop r.headerGet e.headers [] = .ok hm)
    (hds : e.hasDataSchema = true)
    (hbp : e.hasBodyType = true → o.bodyParses r.body = .ok ())
    (hmiss :
      (sec = "Query" ∧ p ∈ e.query ∧ p.required = true ∧ mapGet qm p.name = none) ∨
      (sec = "Params" ∧ p ∈ e.params.map (fun lp => lp.2) ∧ p.required = true ∧
        mapGet pm p.name = none) ∨
      (sec = "Headers" ∧ p ∈ e.headers ∧ p.required = true ∧ mapGet hm p.name = none))
    (hmk : exceptIsOk (marshalChoiceV1 e o (.validationErr (mkValidationError
      (validateErrors e o qm pm hm r.body)))) = true) :
    resultStatus (callV1 e o r h) = some (some 400) ∧
    bodyNamesRequired (callV1 e o r h) sec p.name = true := by
  have hmem : requiredMsg sec p.name ∈ validateErrors e o qm pm hm r.body := by
    unfold validateErrors
    rcases hmiss with ⟨hsec, hpm, hrq, hms⟩ | ⟨hsec, hpm, hrq, hms⟩ | ⟨hsec, hpm, hrq, hms⟩ <;>
      subst hsec <;> simp only [List.mem_append] <;>
      [exact Or.inl (Or.inl (Or.inl (Or.inl (Or.inl (Or.inl (Or.inl
        (mem_requiredErrors _ _ _ _ (name_mem_requiredNames _ _ hpm hrq) hms)))))));
       exact Or.inl (Or.inl (Or.inl (Or.inl (Or.inl (Or.inl (Or.inr
        (mem_requiredErrors _ _ _ _ (name_mem_requiredNames _ _ hpm hrq) hms)))))));
       exact Or.inl (Or.inl (Or.inl (Or.inl (Or.inl (Or.inr
        (mem_requiredErrors _ _ _ _ (name_mem_requiredNames _ _ hpm hrq) hms))))))]
  have hne : validateErrors e o qm pm hm r.body ≠ [] := List.ne_nil_of_mem hmem
  have hpr := parseRequest_validation_fails e o r qm pm hm hq hp hh hds hbp hne
  have hv := respondV1_validation e o (mkValidationError (validateErrors e o qm pm hm r.body)) 0 hmk
  constructor
  · unfold callV1 callV1T
    rw [hpr]
    simp only [resultStatus]
    rw [hv.1]
  · unfold callV1 callV1T
    rw [hpr]
    simp only [bodyNamesRequired]
    rw [hv.2]
    exact decide_eq_true hmem

/-- C3 (witness): the amended theorem for the required query parameter
`q` omitted from a plain `GET /search`. -/
theorem C3_missingRequired_amended_witness :
    resultStatus (callV1 epRequiredQ oracleTriv reqPlain hRet) = some (some 400) ∧
    bodyNamesRequired (callV1 epRequiredQ oracleTriv reqPlain hRet) "Query" "q" = true :=
  C3_missingRequired_amended epRequiredQ oracleTriv reqPlain hRet "Query" ⟨"q", true, .str⟩
    [] [] [] rfl rfl rfl rfl (fun hb => nomatch hb)
    (Or.inl ⟨rfl, by decide, rfl, rfl⟩) rfl

end Oas

namespace Oas

/-- C4 (confirmed): the wrap loop of `NewOpenAPI` / `endpointObject.Define`
applies the declared middleware to the terminal handler in reverse
declaration order, so the composed handler equals the right-nested
application `m1 (m2 (... (mk f)))` — the first-declared middleware is
outermost and runs first on every request. -/
theorem C4_middleware_compose_order {α : Type _} (mws : List (α → α)) (f : α) :
    composeHandler mws f = mws.foldr (fun m h => m h) f := by
  rw [composeHandler, wrapLoopAux_take mws mws.length (Nat.le_refl _) f, List.take_length]

/-- C5 (confirmed): with the per-location loops complete, a compiled
composite schema, a declared body type, and loadable body bytes: (i) if
composite validation reports any violation, `parseRequest` returns that
`JSONValidationError` whatever the deserializer would do — the body is
deserialized only after validation passes; (ii) if validation passes and
the declared body type rejects the bytes, the result is the
`MalformedJSONError` and `Call` answers 400 with it, not 500. -/
theorem C5_deserialize_after_validation (e : EndpointModel) (o : SchemaOracle) (r : RequestModel)
    (h : DataModel → HandlerBehavior) (qm pm hm : MapAny) (cause : String)
    (hq : queryLoop r.queryGet e.query [] = .ok qm)
    (hp : pathLoop (pathBase e) (splitSlash r.path) e.params [] = .ok pm)
    (hh : headerLoop r.headerGet e.headers [] = .ok hm)
    (hds : e.hasDataSchema = true)
    (hbt : e.hasBodyType = true)
    (hbp : o.bodyParses r.body = .ok ()) :
    (validateErrors e o qm pm hm r.body ≠ [] →
      ∀ u, parseRequest e (setUnmarshal o u) r =
        .error (.gerr (.validation (mkValidationError (validateErrors e o qm pm hm r.body))))) ∧
    (validateErrors e o qm pm hm r.body = [] →
      o.unmarshal r.body = .error cause →
      exceptIsOk (marshalChoiceV1 e o (.malformedErr (malformedJSONMsg cause))) = true →
      parseRequest e o r = .error (.gerr (.malformed (malformedJSONMsg cause))) ∧
      resultStatus (callV1 e o r h) = some (some 400) ∧
      resultRes (callV1 e o r h) = some (some
        { status := 400, body := some (.malformedErr (malformedJSONMsg cause)) })) := by
  constructor
  · intro hne u
    exact parseRequest_validation_fails e (setUnmarshal o u) r qm pm hm hq hp hh hds
      (fun _ => hbp) hne
  · intro hemp hum hmk
    have hpr := parseRequest_unmarshal_fail e o r qm pm hm cause hq hp hh hds hbt hbp hemp hum
    have hmo := respondV1_malformed e o (malformedJSONMsg cause) 0 hmk
    refine ⟨hpr, ?_, ?_⟩
    · unfold callV1 callV1T
      rw [hpr]
      simp only [resultStatus]
      rw [hmo.1]
    · unfold callV1 callV1T
      rw [hpr]
      simp only [resultRes]
      rw [hmo.2]

/-- C5 (witness): schema-passing body bytes `[]` rejected by the
concrete target type are classified malformed-JSON and answered 400. -/
theorem C5_deserialize_after_validation_witness :
    parseRequest epBodyDecl oracleUnmarshalFail reqBodyArr =
      .error (.gerr (.malformed (malformedJSONMsg
        "json: cannot unmarshal array into Go value of type main.Result"))) ∧
    resultStatus (callV1 epBodyDecl oracleUnmarshalFail reqBodyArr hRet) = some (some 400) := by
  have h := (C5_deserialize_after_validation epBodyDecl oracleUnmarshalFail reqBodyArr hRet
    [] [] [] "json: cannot unmarshal array into Go value of type main.Result"
    rfl rfl rfl rfl rfl rfl).2 rfl rfl rfl
  exact ⟨h.1, h.2.1⟩

/-- C6 (confirmed): the client-visible outcome of `Endpoint.Call` — the
status passed to `WriteHeader`, the bytes written, and the final `res`
value — is identical under any two response-schema checkers: a
response-body validation mismatch never changes the status or body sent
to the client, it only feeds the accumulated error strings handed to the
observer/log channel. -/
theorem C6_responseValidation_frame (e : EndpointModel) (o : SchemaOracle) (r : RequestModel)
    (h : DataModel → HandlerBehavior) (rc₁ rc₂ : Nat → Option RespBody → RespOutcome) :
    resultStatus (callV1 e (setRespCheck o rc₁) r h) =
      resultStatus (callV1 e (setRespCheck o rc₂) r h) ∧
    resultBytes (callV1 e (setRespCheck o rc₁) r h) =
      resultBytes (callV1 e (setRespCheck o rc₂) r h) ∧
    resultRes (callV1 e (setRespCheck o rc₁) r h) =
      resultRes (callV1 e (setRespCheck o rc₂) r h) := by
  unfold callV1 callV1T
  rw [parseRequest_setRespCheck e o rc₁ r, parseRequest_setRespCheck e o rc₂ r]
  cases hp : parseRequest e o r with
  | error a =>
    cases a with
    | fault m => simp [resultStatus, resultBytes, resultRes]
    | gerr ge =>
      simp only [resultStatus, resultBytes, resultRes]
      have h₁ := respondV1_writeView e (setRespCheck o rc₁) none (some ge) 0
      have h₂ := respondV1_writeView e (setRespCheck o rc₂) none (some ge) 0
      rw [writeView_setRespCheck] at h₁ h₂
      exact ⟨by rw [h₁.1, h₂.1], by rw [h₁.2.1, h₂.2.1], by rw [h₁.2.2, h₂.2.2]⟩
  | ok d =>
    simp only [resultStatus, resultBytes, resultRes]
    have h₁ := respondV1_writeView e (setRespCheck o rc₁)
      (runUserDefinedFunc e h d).output (runUserDefinedFunc e h d).err
      (runUserDefinedFunc e h d).panicLogs
    have h₂ := respondV1_writeView e (setRespCheck o rc₂)
      (runUserDefinedFunc e h d).output (runUserDefinedFunc e h d).err
      (runUserDefinedFunc e h d).panicLogs
    rw [writeView_setRespCheck] at h₁ h₂
    exact ⟨by rw [h₁.1, h₂.1], by rw [h₁.2.1, h₂.2.1], by rw [h₁.2.2, h₂.2.2]⟩

/-- C7 (counterexample): the claim "the observer hook is invoked after
every request ... including responses with a nil body" is false on
`Endpoint.Call`: with a hook registered and a handler returning
`(nil, nil)`, the pipeline resolves and writes status 200 but returns
before the hook dispatch, so the hook is never invoked. -/
theorem C7_observerHook_counterexample :
    resultHook (callV1 epHooked oracleTriv reqPlain hRet) = some none ∧
    resultStatus (callV1 epHooked oracleTriv reqPlain hRet) = some (some 200) := by
  constructor <;> rfl

/-- C7 (amended): in `endpointObject.Call`, every request that completes
without a fault and is not short-circuited by `Response{Ignore: true}`
reaches the hook/log dispatch: the registered hook is invoked (and
receives exactly the final `Response`), and with no hook registered the
diagnostics are written to the operational log exactly once.
`Endpoint.Call` instead skips both when the resolved body is nil. -/
theorem C7_observerHook_amended (e : EndpointModel) (o : SchemaOracle) (r : RequestModel)
    (h : DataModel → HandlerBehavior)
    (hnig : resultIgnored (callV2 e o r h) = some false) :
    (e.hookPresent = true → resultHookIsSome (callV2 e o r h) = some true) ∧
    (e.hookPresent = false → resultPrintCount (callV2 e o r h) = some 1) ∧
    (∀ res err, resultHook (callV2 e o r h) = some (some (res, err)) →
      resultRes (callV2 e o r h) = some (some res)) := by
  unfold callV2 callV2T at hnig ⊢
  cases hp : parseRequest e o r with
  | error a =>
    cases a with
    | fault m => rw [hp] at hnig; simp [resultIgnored] at hnig
    | gerr ge =>
      rw [hp] at hnig
      simp only [resultIgnored] at hnig
      have hd := respondV2_hook_dispatch e o r none (some ge) 0 (by simpa using hnig)
      simp only [resultHookIsSome, resultPrintCount, resultHook, resultRes]
      refine ⟨fun hh => by rw [hd.1 hh], fun hh => by rw [hd.2.1 hh], ?_⟩
      intro res err hhk
      rw [hd.2.2 res err (by simpa using hhk)]
  | ok d =>
    rw [hp] at hnig
    simp only [resultIgnored] at hnig
    have hd := respondV2_hook_dispatch e o r (runUserDefinedFuncV2 h d).output
      (runUserDefinedFuncV2 h d).err (runUserDefinedFuncV2 h d).panicLogs (by simpa using hnig)
    simp only [resultHookIsSome, resultPrintCount, resultHook, resultRes]
    refine ⟨fun hh => by rw [hd.1 hh], fun hh => by rw [hd.2.1 hh], ?_⟩
    intro res err hhk
    rw [hd.2.2 res err (by simpa using hhk)]

/-- C7 (witness): in `endpointObject.Call` the hook does fire for a
nil-body response. -/
theorem C7_observerHook_amended_witness :
    resultIgnored (callV2 epHooked oracleTriv reqPlain hRet) = some false ∧
    resultHookIsSome (callV2 epHooked oracleTriv reqPlain hRet) = some true :=
  ⟨rfl, (C7_observerHook_amended epHooked oracleTriv reqPlain hRet rfl).1 rfl⟩

/-- C8 (code bug): with the service default indent 2 and the request
header `Oas-Json-Indent: 4`, `endpointObject.Call` serializes with the
two-space indent string built from `e.spec.jsonIndent` — the
header-derived value only decides *whether* to indent
(`endpoint.go:851-853`), so the response is not serialized with indent
level 4 as the spec requires. -/
theorem C8_indentHeader_bug :
    resultUsedIndent (callV2 epHooked oracleTriv reqIndent4 hBody) =
      some (some (some (spaces 2))) ∧
    spaces 2 ≠ spaces 4 := by
  constructor
  · rfl
  · decide

/-- C9 (confirmed): `Call` leaves the endpoint's definition-time state —
compiled composite schema, response schemas, placeholder index map,
parameter lists, body type, composed handler — untouched in both
variants: the threaded pipeline returns the endpoint exactly as given on
every control path, writing only the per-request result. -/
theorem C9_endpoint_immutable_during_call (e : EndpointModel) (o : SchemaOracle)
    (r : RequestModel) (h : DataModel → HandlerBehavior) :
    (callV1T e o r h).1 = e ∧ (callV2T e o r h).1 = e := by
  constructor
  · unfold callV1T
    cases hp : parseRequest e o r with
    | error a => cases a <;> simp
    | ok d => simp
  · unfold callV2T
    cases hp : parseRequest e o r with
    | error a => cases a <;> simp
    | ok d => simp

/-- C10 (code bug): the guard `len(splitPath) <= loc` does not protect
the access at `basePathLength + loc`: for the versioned endpoint
`/v1/things/{id}` (placeholder index 2, effective base offset 1) and the
request path `/v1/things` (three segments), the guard passes (3 > 2) but
the access indexes position 3 of a length-3 slice, so request
materialization faults with an out-of-range error that escapes `Call`
unrecovered. -/
theorem C10_pathIndex_out_of_range :
    parseRequest epVersionedPath oracleTriv reqShortPath =
      .error (.fault "runtime error: index out of range [3] with length 3") ∧
    callV1 epVersionedPath oracleTriv reqShortPath hRet =
      .error "runtime error: index out of range [3] with length 3" := by
  constructor <;> rfl

end Oas
